import Mathlib

/-!
Verification of the `resultr` library (src/index.ts): the `Result<V, E>`
container (fields `value?`, `error?`, methods `isOk`, `isErr`, `unwrap`,
`unwrapErr`), the sanctioned constructors `Ok` / `Err`, and the adapter
function `resultr`.

The embedding models JavaScript runtime values as far as this library can
observe them: the library only ever tests `=== undefined`,
`instanceof Error`, `instanceof Promise`, and applies `String(...)`.
Thrown values and promise rejections are modelled with `Except` (a handler
either returns, `.ok`, or throws, `.error`), and the settlement of a
promise with `Settled`.
-/

namespace Resultr

/-- A JavaScript runtime value, as observed by this library:
`undefined`; an `Error` object carrying its `message`; a native `Promise`
together with its eventual settlement (`fulfilled = true` with the payload
it fulfills with, `fulfilled = false` with the payload it rejects with);
an awaitable-like object that is *not* an `instanceof Promise` (a
"thenable"), also with its eventual settlement; and any other value,
represented by the string `String(v)` yields on it, which is all the
library ever does with such a value. -/
inductive JSVal : Type where
  | undef : JSVal
  | error (message : String) : JSVal
  | promise (fulfilled : Bool) (payload : JSVal) : JSVal
  | thenable (fulfilled : Bool) (payload : JSVal) : JSVal
  | prim (str : String) : JSVal
deriving DecidableEq, Repr

/-- JavaScript `String(v)`. For an `Error` object, `String` produces
`"Error: " ++ message`; for `undefined` it produces `"undefined"`;
a `prim` carries its own string form; promises and plain thenable objects
stringify to their default object tags. -/
def JSVal.jsString : JSVal → String
  | .undef => "undefined"
  | .error m => "Error: " ++ m
  | .promise _ _ => "[object Promise]"
  | .thenable _ _ => "[object Object]"
  | .prim s => s

/-- JavaScript `v instanceof Error` (the "error-like" capability test the
source uses in both normalization sites). -/
def JSVal.isError : JSVal → Bool
  | .error _ => true
  | _ => false

/-- JavaScript `v instanceof Promise`: true only for native promises, not
for merely awaitable-like (thenable) objects. -/
def JSVal.isPromise : JSVal → Bool
  | .promise _ _ => true
  | _ => false

/-- Spec-side notion (no corresponding check exists in the source): a value
is awaitable when `await` would suspend on it, i.e. it is a native promise
or an awaitable-like thenable object. -/
def JSVal.isAwaitable : JSVal → Bool
  | .promise _ _ => true
  | .thenable _ _ => true
  | _ => false

/-- The `Result<V, E>` class. Both fields are optional in the source
(`value?: V`, `error?: E`); an absent field holds `undefined`, modelled by
`JSVal.undef`. `Result.mk value error` is exactly the constructor
`new Result(value, error)`, which assigns both fields unchecked; omitted
arguments default to `undefined`. -/
structure Result where
  value : JSVal := JSVal.undef
  error : JSVal := JSVal.undef
deriving DecidableEq, Repr

/-- Method `isOk()`: `return this.error === undefined;`. -/
def Result.isOk (r : Result) : Bool :=
  r.error == JSVal.undef

/-- Method `isErr()`: `return !this.isOk();`. -/
def Result.isErr (r : Result) : Bool :=
  !r.isOk

/-- Method `unwrap()`: `if (this.isErr()) { throw this.error; } return this.value;`.
A thrown payload is `Except.error`, a normal return is `Except.ok`. -/
def Result.unwrap (r : Result) : Except JSVal JSVal :=
  if r.isErr then Except.error r.error else Except.ok r.value

/-- Method `unwrapErr()`:
`if (this.isOk()) { throw new Error("Called unwrapErr on an Ok result"); } return this.error;`. -/
def Result.unwrapErr (r : Result) : Except JSVal JSVal :=
  if r.isOk then Except.error (JSVal.error "Called unwrapErr on an Ok result")
  else Except.ok r.error

/-- Constructor `Ok(value)`: `return new Result(value);` — the error
argument is omitted, so the error field is `undefined`. -/
def Ok (value : JSVal) : Result :=
  { value := value, error := JSVal.undef }

/-- Constructor `Err(error)`: `return new Result(undefined as never, error);`. -/
def Err (error : JSVal) : Result :=
  { value := JSVal.undef, error := error }

/-- The behaviour of a zero-argument callable `fn` when invoked: it either
returns a value (which may be a promise or a thenable) or throws
synchronously. -/
inductive CallBehavior : Type where
  | returns (v : JSVal)
  | throws (e : JSVal)
deriving DecidableEq, Repr

/-- The settlement of a promise whose fulfillment payload has type `α`:
it either fulfills with a value or rejects with an arbitrary JS payload. -/
inductive Settled (α : Type) : Type where
  | fulfilled (v : α)
  | rejected (e : JSVal)
deriving DecidableEq, Repr

/-- JavaScript `p.then(f)` on a settled promise `p`: if `p` fulfilled with
`v`, the derived promise fulfills with `f v`'s return, or rejects with the
payload `f` throws; if `p` rejected, the rejection passes through. -/
def Settled.jsThen {α β : Type} (s : Settled α) (f : α → Except JSVal β) :
    Settled β :=
  match s with
  | .fulfilled v =>
    match f v with
    | .ok w => .fulfilled w
    | .error e => .rejected e
  | .rejected e => .rejected e

/-- JavaScript `p.catch(g)` on a settled promise `p`: a fulfillment passes
through; if `p` rejected with `e`, the derived promise fulfills with
`g e`'s return, or rejects with the payload `g` throws. -/
def Settled.jsCatch {α : Type} (s : Settled α) (g : JSVal → Except JSVal α) :
    Settled α :=
  match s with
  | .fulfilled v => .fulfilled v
  | .rejected e =>
    match g e with
    | .ok w => .fulfilled w
    | .error e2 => .rejected e2

/-- The settlement of the native promise `JSVal.promise fulfilled payload`. -/
def settledOf (fulfilled : Bool) (payload : JSVal) : Settled JSVal :=
  if fulfilled then .fulfilled payload else .rejected payload

/-- The error normalization the source writes inline, identically, in the
`.catch` handler and in the `catch` block:
`error instanceof Error ? error : new Error(String(error))`. -/
def jsNormalize (e : JSVal) : JSVal :=
  if e.isError then e else JSVal.error e.jsString

/-- What a call to `resultr` hands back to its caller: either a `Result`
returned synchronously, or a native promise of a `Result`, identified with
its settlement. -/
inductive ResultrReturn : Type where
  | sync (r : Result)
  | async (s : Settled Result)
deriving DecidableEq, Repr

/-- True when `resultr` returned a deferred (promise-of-`Result`) value
rather than a synchronous `Result`. -/
def ResultrReturn.isAsync : ResultrReturn → Bool
  | .async _ => true
  | .sync _ => false

/-- The adapter `resultr(fn)`. The whole body sits in `try { ... } catch`,
so a synchronous throw from `fn()` reaches the `catch` block, which returns
`Err` of the normalized payload synchronously; this is the `.throws` case.
When `fn()` returns, the source tests `result instanceof Promise`: a native
promise is given `.then(Ok).catch(error => Err(normalize error))` and the
derived promise is returned; any other value `v` — including an
awaitable-like thenable, which fails the `instanceof Promise` test — is
returned as `Ok(v)` synchronously. Neither handler can throw, and the
adapter itself is total: no failure of `fn` escapes as a throw. -/
def resultr (fn : CallBehavior) : ResultrReturn :=
  match fn with
  | .returns v =>
    match v with
    | .promise f p =>
      .async ((Settled.jsThen (settledOf f p) (fun x => Except.ok (Ok x))).jsCatch
        (fun e => Except.ok (Err (jsNormalize e))))
    | _ => .sync (Ok v)
  | .throws e => .sync (Err (jsNormalize e))

/-- Both slots of the container hold a non-`undefined` value. -/
def Result.bothSet (r : Result) : Prop :=
  r.value ≠ JSVal.undef ∧ r.error ≠ JSVal.undef

/-- Neither slot of the container holds a non-`undefined` value. -/
def Result.neitherSet (r : Result) : Prop :=
  r.value = JSVal.undef ∧ r.error = JSVal.undef

/-- Exactly one of the two slots holds a non-`undefined` value. -/
def Result.exactlyOneSet (r : Result) : Prop :=
  ¬r.bothSet ∧ ¬r.neitherSet

instance (r : Result) : Decidable r.bothSet :=
  inferInstanceAs (Decidable (r.value ≠ JSVal.undef ∧ r.error ≠ JSVal.undef))

instance (r : Result) : Decidable r.neitherSet :=
  inferInstanceAs (Decidable (r.value = JSVal.undef ∧ r.error = JSVal.undef))

instance (r : Result) : Decidable r.exactlyOneSet :=
  inferInstanceAs (Decidable (¬r.bothSet ∧ ¬r.neitherSet))

/-- True when a settled promise rejected. -/
def Settled.isRejected {α : Type} : Settled α → Bool
  | .rejected _ => true
  | .fulfilled _ => false

/-- An error-like value is never `undefined`. -/
theorem isError_ne_undef {e : JSVal} (he : e.isError = true) :
    e ≠ JSVal.undef := by
  cases e <;> simp [JSVal.isError] at he ⊢

/-- Claim C1, counterexample: the claim quantifies over every value `v`
for `Ok`, including `undefined`, but `Ok(undefined)` stores `undefined` in
the value slot and leaves the error slot `undefined`, so neither slot is
set and "exactly one of the value/error slots is set" fails. -/
theorem ok_undef_not_exactly_one_slot :
    ¬(Ok JSVal.undef).exactlyOneSet ∧ (Ok JSVal.undef).neitherSet := by
  decide

/-- Claim C1 (amended): for every value `v` other than `undefined`,
`Ok v` has exactly one slot set, and for every error-like `e`, `Err e` has
exactly one slot set (never both, never neither); `Ok undefined` instead
has neither slot set — in particular no sanctioned construction ever has
both slots set. -/
theorem ok_err_exactly_one_slot (v e : JSVal) (hv : v ≠ JSVal.undef)
    (he : e.isError = true) :
    (Ok v).exactlyOneSet ∧ (Err e).exactlyOneSet ∧
      (Ok JSVal.undef).neitherSet := by
  have he' : e ≠ JSVal.undef := isError_ne_undef he
  refine ⟨⟨fun h => h.2 rfl, fun h => hv h.1⟩,
    ⟨fun h => h.1 rfl, fun h => he' h.2⟩, rfl, rfl⟩

/-- Witness for the amended claim C1 at `v = prim "x"`, `e = Error "m"`. -/
theorem ok_err_exactly_one_slot_witness :
    (Ok (JSVal.prim "x")).exactlyOneSet ∧
      (Err (JSVal.error "m")).exactlyOneSet ∧
      (Ok JSVal.undef).neitherSet :=
  ok_err_exactly_one_slot (JSVal.prim "x") (JSVal.error "m")
    (by decide) (by decide)

/-- Claim C2, counterexample: a returned value that is awaitable-like but
not `instanceof Promise` (a thenable) fails the adapter's native-promise
test, so `resultr` does not return an awaitable-of-`Result` for it: it
returns `Ok` of the thenable synchronously. -/
theorem resultr_thenable_stays_sync :
    (JSVal.thenable true (JSVal.prim "x")).isAwaitable = true ∧
      (resultr (CallBehavior.returns
        (JSVal.thenable true (JSVal.prim "x")))).isAsync = false ∧
      resultr (CallBehavior.returns (JSVal.thenable true (JSVal.prim "x"))) =
        ResultrReturn.sync (Ok (JSVal.thenable true (JSVal.prim "x"))) := by
  decide

/-- Claim C2 (amended): if the value returned by `fn` is a native
`Promise`, `resultr fn` returns an awaitable-of-`Result`; if it is any
other value `v` — plain values, but also awaitable-like objects that are
not native promises — `resultr fn` returns `Ok v` synchronously, with no
deferred wrapper. -/
theorem resultr_dispatch_on_native_promise (v : JSVal) :
    (v.isPromise = true →
      (resultr (CallBehavior.returns v)).isAsync = true) ∧
    (v.isPromise = false →
      resultr (CallBehavior.returns v) = ResultrReturn.sync (Ok v)) := by
  cases v <;> simp [JSVal.isPromise, resultr, ResultrReturn.isAsync]

/-- Witness for the amended claim C2 at a fulfilled promise and at a plain
value. -/
theorem resultr_dispatch_on_native_promise_witness :
    (resultr (CallBehavior.returns
      (JSVal.promise true (JSVal.prim "a")))).isAsync = true ∧
    resultr (CallBehavior.returns (JSVal.prim "b")) =
      ResultrReturn.sync (Ok (JSVal.prim "b")) :=
  ⟨(resultr_dispatch_on_native_promise
      (JSVal.promise true (JSVal.prim "a"))).1 (by decide),
    (resultr_dispatch_on_native_promise (JSVal.prim "b")).2 (by decide)⟩

/-- Claim C3: whenever `resultr fn` returns an awaitable-of-`Result`, that
awaitable never rejects; it comes from `fn` returning a native promise,
and it settles fulfilled with `Ok v` when the inner promise fulfills with
`v`, and fulfilled with `Err (normalize e)` when the inner promise rejects
with `e` — the rejection is not propagated to the caller. -/
theorem resultr_async_never_rejects (fn : CallBehavior) (s : Settled Result)
    (h : resultr fn = ResultrReturn.async s) :
    s.isRejected = false ∧
    ∀ fulfilled payload,
      fn = CallBehavior.returns (JSVal.promise fulfilled payload) →
        s = Settled.fulfilled
          (if fulfilled then Ok payload else Err (jsNormalize payload)) := by
  cases fn with
  | throws e => simp [resultr] at h
  | returns v =>
    cases v with
    | promise f p =>
      cases f <;>
      · injection h with h2
        subst h2
        exact ⟨rfl, fun f' p' heq => by cases heq; rfl⟩
    | undef => simp [resultr] at h
    | error m => simp [resultr] at h
    | thenable f p => simp [resultr] at h
    | prim s2 => simp [resultr] at h

/-- Witness for claim C3 at a promise that rejects with the plain string
payload `"boom"`. -/
theorem resultr_async_never_rejects_witness :
    (Settled.fulfilled (Err (JSVal.error "boom")) :
        Settled Result).isRejected = false ∧
    (Settled.fulfilled (Err (JSVal.error "boom")) : Settled Result) =
      Settled.fulfilled
        (if false then Ok (JSVal.prim "boom")
          else Err (jsNormalize (JSVal.prim "boom"))) :=
  ⟨(resultr_async_never_rejects
      (CallBehavior.returns (JSVal.promise false (JSVal.prim "boom")))
      (Settled.fulfilled (Err (JSVal.error "boom"))) (by decide)).1,
    (resultr_async_never_rejects
      (CallBehavior.returns (JSVal.promise false (JSVal.prim "boom")))
      (Settled.fulfilled (Err (JSVal.error "boom"))) (by decide)).2
      false (JSVal.prim "boom") rfl⟩

/-- Claim C4: when invoking `fn()` throws synchronously with payload `e`,
`resultr` catches it and returns `Err (normalize e)` synchronously — a
`Result`, never a deferred value. The adapter `resultr` is a total
function into `ResultrReturn`, so no failure of the wrapped callable
propagates as a throw out of the adapter itself. -/
theorem resultr_sync_throw (e : JSVal) :
    resultr (CallBehavior.throws e) =
      ResultrReturn.sync (Err (jsNormalize e)) ∧
    (resultr (CallBehavior.throws e)).isAsync = false :=
  ⟨rfl, rfl⟩

/-- Claim C5: the adapter's normalization passes an error-like payload
through unchanged (the very same value, no wrapping, no message change)
and turns any other payload into a new generic error whose message is the
payload's string representation; in particular a thrown plain string
`"boom"` yields a failure `Result` whose `unwrapErr()` returns an
error-like value with message `"boom"`, not the raw string. -/
theorem normalize_identity_or_stringify (e : JSVal) :
    (e.isError = true → jsNormalize e = e) ∧
    (e.isError = false → jsNormalize e = JSVal.error e.jsString) ∧
    (resultr (CallBehavior.throws (JSVal.prim "boom")) =
        ResultrReturn.sync (Err (JSVal.error "boom")) ∧
      (Err (JSVal.error "boom")).unwrapErr =
        Except.ok (JSVal.error "boom") ∧
      (JSVal.error "boom").isError = true ∧
      JSVal.error "boom" ≠ JSVal.prim "boom") := by
  refine ⟨?_, ?_, rfl, rfl, rfl, by decide⟩ <;>
    intro h <;> simp [jsNormalize, h]

/-- Witness for claim C5 at an error-like payload and at the plain string
payload `"boom"`. -/
theorem normalize_identity_or_stringify_witness :
    jsNormalize (JSVal.error "m") = JSVal.error "m" ∧
    jsNormalize (JSVal.prim "boom") =
      JSVal.error ((JSVal.prim "boom").jsString) :=
  ⟨(normalize_identity_or_stringify (JSVal.error "m")).1 (by decide),
    (normalize_identity_or_stringify (JSVal.prim "boom")).2.1 (by decide)⟩

/-- Claim C6: for every value `v`, `Ok v` reports success, not failure,
and `unwrap` returns `v`; for every error-like `e`, `Err e` reports
failure, not success, and `unwrapErr` returns `e` itself. -/
theorem ok_err_roundtrip (v e : JSVal) (he : e.isError = true) :
    (Ok v).isOk = true ∧ (Ok v).isErr = false ∧
      (Ok v).unwrap = Except.ok v ∧
    (Err e).isOk = false ∧ (Err e).isErr = true ∧
      (Err e).unwrapErr = Except.ok e := by
  have he' : e ≠ JSVal.undef := isError_ne_undef he
  refine ⟨rfl, rfl, rfl, ?_, ?_, ?_⟩ <;>
    simp [Err, Result.isOk, Result.isErr, Result.unwrapErr, he']

/-- Witness for claim C6 at `v = prim "x"`, `e = Error "m"`. -/
theorem ok_err_roundtrip_witness :
    (Ok (JSVal.prim "x")).isOk = true ∧
      (Ok (JSVal.prim "x")).isErr = false ∧
      (Ok (JSVal.prim "x")).unwrap = Except.ok (JSVal.prim "x") ∧
    (Err (JSVal.error "m")).isOk = false ∧
      (Err (JSVal.error "m")).isErr = true ∧
      (Err (JSVal.error "m")).unwrapErr = Except.ok (JSVal.error "m") :=
  ok_err_roundtrip (JSVal.prim "x") (JSVal.error "m") (by decide)

/-- Claim C7: for every error-like `e`, `unwrap` on `Err e` throws exactly
`e` itself — the carried error, not a wrapper around it. -/
theorem err_unwrap_rethrows (e : JSVal) (he : e.isError = true) :
    (Err e).unwrap = Except.error e := by
  have he' : e ≠ JSVal.undef := isError_ne_undef he
  simp [Err, Result.unwrap, Result.isErr, Result.isOk, he']

/-- Witness for claim C7 at `e = Error "m"`. -/
theorem err_unwrap_rethrows_witness :
    (Err (JSVal.error "m")).unwrap = Except.error (JSVal.error "m") :=
  err_unwrap_rethrows (JSVal.error "m") (by decide)

/-- Claim C8: for every value `v`, `unwrapErr` on `Ok v` throws a new
generic `Error` with message "Called unwrapErr on an Ok result"; the
container carries no error (its error slot is `undefined`), so the thrown
error is distinct from anything the container holds in that slot. -/
theorem ok_unwrapErr_contract_violation (v : JSVal) :
    (Ok v).unwrapErr =
      Except.error (JSVal.error "Called unwrapErr on an Ok result") ∧
    (Ok v).error = JSVal.undef ∧
    JSVal.error "Called unwrapErr on an Ok result" ≠ (Ok v).error :=
  ⟨rfl, rfl, fun h => JSVal.noConfusion h⟩

/-- Claim C9: for every `Result` instance, `isOk` and `isErr` are never
equal, and this holds because `isErr` is literally the boolean negation of
`isOk` rather than an independent check of the value slot. -/
theorem isOk_ne_isErr (r : Result) :
    r.isOk ≠ r.isErr ∧ r.isErr = !r.isOk := by
  refine ⟨?_, rfl⟩
  cases h : r.isOk <;> simp [Result.isErr, h]

/-- Claim C10: the tag is determined solely by the error slot: a directly
constructed instance is success-tagged exactly when its error field is
`undefined`; `Ok undefined` is success-tagged and `unwrap` returns
`undefined` without throwing; an instance holding any value together with
a non-`undefined` error is failure-tagged and `unwrap` throws that
error. -/
theorem tag_determined_by_error_slot (val err : JSVal)
    (h : err ≠ JSVal.undef) :
    (∀ w e2 : JSVal, ((Result.mk w e2).isOk = true ↔ e2 = JSVal.undef)) ∧
    (Ok JSVal.undef).isOk = true ∧
    (Ok JSVal.undef).unwrap = Except.ok JSVal.undef ∧
    (Result.mk val err).isOk = false ∧
    (Result.mk val err).unwrap = Except.error err := by
  refine ⟨fun w e2 => ?_, rfl, rfl, ?_, ?_⟩ <;>
    simp [Result.isOk, Result.unwrap, Result.isErr, h]

/-- Witness for claim C10 at a directly constructed instance with both a
value and an error populated. -/
theorem tag_determined_by_error_slot_witness :
    (Result.mk (JSVal.prim "x") (JSVal.error "m")).isOk = false ∧
    (Result.mk (JSVal.prim "x") (JSVal.error "m")).unwrap =
      Except.error (JSVal.error "m") :=
  ⟨(tag_determined_by_error_slot (JSVal.prim "x") (JSVal.error "m")
      (by decide)).2.2.2.1,
    (tag_determined_by_error_slot (JSVal.prim "x") (JSVal.error "m")
      (by decide)).2.2.2.2⟩

end Resultr
